import Mathlib

/-!
Shallow embedding of the SSH/SFTP session manager in
`src/src-tauri/src/lib.rs` (Terminoda).

Effectful library calls (TCP connect, SSH handshake, authentication,
channel operations, SFTP subsystem calls, local file I/O) are modelled by
environment records carrying the outcome each call would produce; the
embedded functions reproduce the source's control flow over those
outcomes, thread the session registry explicitly, and record the
side effects they perform as an ordered list of `Event`s.
-/

namespace Terminoda

/-- Mirrors the Rust struct `SftpFile` (lib.rs lines 36-43). -/
structure SftpFile where
  name : String
  is_dir : Bool
  size : Nat
  permissions : String
  modified : Nat
deriving DecidableEq, Repr

/-- Mirrors `SessionState` (lib.rs lines 18-22): the shell channel and the
authenticated transport are opaque live handles, so only the lazily
created SFTP subsystem handle (`Arc<Mutex<Option<Sftp>>>`) carries state
the claims observe; an SFTP handle is modelled as a numeric token. -/
structure SessionState where
  sftp : Option Nat
deriving DecidableEq, Repr

/-- The session registry `DashMap<Uuid, SessionState>` (lib.rs line 25),
modelled as an association list keyed by the parsed UUID string. -/
abbrev Registry := List (String × SessionState)

/-- `DashMap::get` by key. -/
def lookupReg (id : String) : Registry → Option SessionState
  | [] => none
  | (k, v) :: rest => if k = id then some v else lookupReg id rest

/-- `DashMap::insert` of a fresh key (connect generates collision-free
UUIDs, so shadowing an existing key never happens in practice). -/
def insertReg (id : String) (st : SessionState) (r : Registry) : Registry :=
  (id, st) :: r

/-- `DashMap::remove` by key. -/
def removeReg (id : String) : Registry → Registry
  | [] => []
  | (k, v) :: rest => if k = id then rest else (k, v) :: removeReg id rest

/-- In-place update of a stored session (the Rust code mutates the
`Option<Sftp>` behind the entry's `Arc<Mutex<..>>`). -/
def updateReg (id : String) (st : SessionState) : Registry → Registry
  | [] => []
  | (k, v) :: rest => if k = id then (k, st) :: rest else (k, v) :: updateReg id st rest

/-- Hexadecimal digit test, used by the UUID well-formedness check. -/
def isHexDigit (c : Char) : Bool :=
  (decide ('0' ≤ c) && decide (c ≤ '9')) ||
  (decide ('a' ≤ c) && decide (c ≤ 'f')) ||
  (decide ('A' ≤ c) && decide (c ≤ 'F'))

/-- Consume exactly `n` hex digits from the front of a character list,
returning the remaining characters. -/
def hexRun : Nat → List Char → Option (List Char)
  | 0, cs => some cs
  | _ + 1, [] => (none : Option (List Char))
  | n + 1, c :: cs => if isHexDigit c then hexRun n cs else none

/-- Consume a literal hyphen. -/
def dashRun : List Char → Option (List Char)
  | '-' :: cs => some cs
  | _ => none

/-- Models `Uuid::parse_str` from the external `uuid` crate (a dependency,
not repository code): accepts the canonical hyphenated 8-4-4-4-12 form and
returns the identifier used as the registry key. Only the control flow
"parse failure is reported before any registry lookup" matters to the
embedded operations. -/
def parseUuid (s : String) : Option String :=
  match hexRun 8 s.data with
  | none => none
  | some r1 =>
    match dashRun r1 with
    | none => none
    | some r2 =>
      match hexRun 4 r2 with
      | none => none
      | some r3 =>
        match dashRun r3 with
        | none => none
        | some r4 =>
          match hexRun 4 r4 with
          | none => none
          | some r5 =>
            match dashRun r5 with
            | none => none
            | some r6 =>
              match hexRun 4 r6 with
              | none => none
              | some r7 =>
                match dashRun r7 with
                | none => none
                | some r8 =>
                  match hexRun 12 r8 with
                  | none => none
                  | some r9 => if r9 = [] then some s else none

/-- The parse-failure text produced by the external `uuid` crate, opaque
to this repository (each command surfaces it via `e.to_string()`). -/
def uuidParseError : String := "invalid UUID"

/-- Display text of `TransferError::InvalidSessionId` (lib.rs line 114). -/
def invalidSessionIdError : String := "Invalid session identifier"

/-- Octal digits of `n`, most significant first, written with structural
fuel so that concrete evaluations reduce in the kernel; `octString` always
supplies sufficient fuel. -/
def octDigitsCore : Nat → Nat → List Char
  | 0, _ => []
  | fuel + 1, n =>
    let d := Char.ofNat (48 + n % 8)
    if n < 8 then [d] else octDigitsCore fuel (n / 8) ++ [d]

/-- Octal rendering of a natural number (no padding). -/
def octString (n : Nat) : String :=
  ⟨octDigitsCore (n + 1) n⟩

/-- Models the permission rendering of `list_directory` (lib.rs lines
593-596): `perm.map(|p| format!("{:03o}", p)).unwrap_or("---------")`,
i.e. octal zero-padded to a minimum width of three digits, with a
nine-dash placeholder when the permission bits are unknown. -/
def renderPerm : Option Nat → String
  | none => "---------"
  | some p =>
    let s := octString p
    ⟨List.replicate (3 - s.length) '0'⟩ ++ s

/-- Remote `stat` data as surfaced by the ssh2 `FileStat` fields the code
reads: permission bits, size, mtime, and the directory flag. -/
structure FileStat where
  perm : Option Nat
  size : Option Nat
  mtime : Option Nat
  isDir : Bool
deriving DecidableEq, Repr

/-- The entry-to-`SftpFile` mapping of `list_directory` (lib.rs lines
586-605): unknown size/mtime default to 0, permissions rendered by
`renderPerm`. The entry name is taken as given (the Rust code extracts
`file_name()` from the returned path). -/
def mkSftpFile (name : String) (stat : FileStat) : SftpFile :=
  { name := name
    is_dir := stat.isDir
    size := stat.size.getD 0
    permissions := renderPerm stat.perm
    modified := stat.mtime.getD 0 }

/-- Lexicographic order on character lists by code point, modelling
Rust's `str::cmp` (which compares UTF-8 bytes; byte order and code-point
order agree because UTF-8 is order-preserving): `nameLe as bs` holds iff
`as.cmp(bs) != Greater`. -/
def nameLe : List Char → List Char → Bool
  | [], _ => true
  | _ :: _, [] => false
  | a :: as, b :: bs =>
    if a.toNat < b.toNat then true
    else if b.toNat < a.toNat then false
    else nameLe as bs

/-- The comparator of `list_directory`'s sort (lib.rs lines 607-612):
`a` may precede `b` iff directories come first when the flags differ,
otherwise names compare lexicographically. -/
def fileLe (a b : SftpFile) : Bool :=
  if a.is_dir != b.is_dir then a.is_dir else nameLe a.name.data b.name.data

/-- Ordered insertion wrt `fileLe`. -/
def insertFile (a : SftpFile) : List SftpFile → List SftpFile
  | [] => [a]
  | b :: rest => if fileLe a b then a :: b :: rest else b :: insertFile a rest

/-- The sort applied by `list_directory` (`files.sort_by(..)`), modelled
as a stable sort wrt the comparator `fileLe`. -/
def sortFiles : List SftpFile → List SftpFile
  | [] => []
  | a :: rest => insertFile a (sortFiles rest)

/-- The observable side effects the embedded commands perform, in order.
`logAttempt` records the history write of `log_connection_attempt`;
`setTimeout`/`setKeepalive` record transport configuration; the remaining
constructors record network, channel, SFTP and local-file effects. -/
inductive Event where
  | logAttempt (status : String)
  | tcpConnect
  | setTimeout (ms : Nat)
  | setKeepalive (secs : Nat)
  | handshake
  | authKey
  | authPassword
  | channelOpen
  | requestPty (term : String)
  | shellStart
  | setNonBlocking
  | registryInsert (id : String)
  | relaySpawn
  | channelWrite (data : String)
  | channelFlush
  | requestPtySize (cols rows : Nat)
  | sendEof
  | channelClose
  | waitClose
  | sftpInit
  | readdir (path : String)
  | mkdir (path : String) (mode : Nat)
  | rmdir (path : String)
  | unlink (path : String)
  | rename (oldPath newPath : String)
  | statPath (path : String)
  | setstat (path : String) (mode : Nat)
deriving DecidableEq, Repr

/-- Mirrors the Rust struct `ConnectionDetails` (lib.rs lines 54-68);
only the fields `connect_ssh` reads are kept (`auth_method` is dead code
there). -/
structure ConnectionDetails where
  host : String
  port : Option Nat
  username : String
  password : Option String
  private_key_path : Option String
  passphrase : Option String
  keepalive_interval : Option Nat
  timeout : Option Nat
deriving DecidableEq, Repr

/-- Outcomes of the effectful library calls `connect_ssh` makes, in the
order the source can reach them; `newSessionId` is the fresh UUID
`Uuid::new_v4()` would produce. -/
structure ConnEnv where
  tcpConnect : Except String Unit
  sessionNew : Except String Unit
  handshake : Except String Unit
  authKey : Except String Unit
  authPassword : Except String Unit
  authenticated : Bool
  channelSession : Except String Unit
  requestPty : Except String Unit
  shell : Except String Unit
  newSessionId : String

/-- The transport-configuration events of `connect_ssh` (lib.rs lines
238-242): `set_keepalive` is called only when a positive keepalive
interval was supplied. -/
def keepaliveEvents : Option Nat → List Event
  | some k => if 0 < k then [.setKeepalive k] else []
  | none => []

/-- The post-authentication tail of `connect_ssh` (lib.rs lines 274-355):
`authenticated()` check, channel session, PTY request, shell start,
switch to non-blocking mode, registry insertion, relay-thread spawn.
`ev` is the event trace accumulated before this point. -/
def connectAfterAuth (env : ConnEnv) (terminal_type : Option String)
    (sessions : Registry) (ev : List Event) :
    Except String String × Registry × List Event :=
  if !env.authenticated then
    (.error "Authentication failed", sessions, ev ++ [.logAttempt "Failed (Auth)"])
  else
    let ev := ev ++ [Event.logAttempt "Success"]
    match env.channelSession with
    | .error e => (.error e, sessions, ev ++ [.channelOpen])
    | .ok _ =>
      let term := terminal_type.getD "xterm-256color"
      match env.requestPty with
      | .error e => (.error e, sessions, ev ++ [.channelOpen, .requestPty term])
      | .ok _ =>
        match env.shell with
        | .error e => (.error e, sessions, ev ++ [.channelOpen, .requestPty term, .shellStart])
        | .ok _ =>
          (.ok env.newSessionId,
           insertReg env.newSessionId { sftp := none } sessions,
           ev ++ [.channelOpen, .requestPty term, .shellStart, .setNonBlocking,
                  .registryInsert env.newSessionId, .relaySpawn])

/-- Models `connect_ssh` (lib.rs lines 200-359): logs the attempt, opens
TCP, creates the library session, configures timeout/keepalive, performs
the handshake, authenticates with exactly the credential variant present
(key first, else password, else the validation error), then hands off to
`connectAfterAuth`. -/
def connect_ssh (env : ConnEnv) (details : ConnectionDetails)
    (terminal_type : Option String) (sessions : Registry) :
    Except String String × Registry × List Event :=
  let ev0 : List Event := [.logAttempt "Connecting..."]
  match env.tcpConnect with
  | .error e => (.error e, sessions, ev0 ++ [.tcpConnect])
  | .ok _ =>
    match env.sessionNew with
    | .error e => (.error e, sessions, ev0 ++ [.tcpConnect])
    | .ok _ =>
      let evTm := Event.setTimeout (details.timeout.getD 10000)
      let ev1 := ev0 ++ [Event.tcpConnect, evTm] ++ keepaliveEvents details.keepalive_interval
      match env.handshake with
      | .error e => (.error e, sessions, ev1 ++ [.handshake])
      | .ok _ =>
        let ev2 := ev1 ++ [Event.handshake]
        match details.private_key_path with
        | some _ =>
          (match env.authKey with
           | .error e =>
             (.error ("Key authentication failed: " ++ e), sessions, ev2 ++ [.authKey])
           | .ok _ => connectAfterAuth env terminal_type sessions (ev2 ++ [.authKey]))
        | none =>
          match details.password with
          | some _ =>
            (match env.authPassword with
             | .error e =>
               (.error ("Password authentication failed: " ++ e), sessions,
                ev2 ++ [.authPassword])
             | .ok _ => connectAfterAuth env terminal_type sessions (ev2 ++ [.authPassword]))
          | none => (.error "No password or private key provided", sessions, ev2)

/-- Outcomes of the channel calls made by `send_terminal_input` and
`resize_terminal`. -/
structure ChanEnv where
  writeRes : Except String Unit
  flushRes : Except String Unit
  ptySizeRes : Except String Unit

/-- Models `send_terminal_input` (lib.rs lines 361-379): parse the UUID,
look the session up, `write_all` then `flush` on the locked channel. -/
def send_terminal_input (env : ChanEnv) (session_id data : String)
    (sessions : Registry) : Except String Unit × Registry × List Event :=
  match parseUuid session_id with
  | none => (.error uuidParseError, sessions, [])
  | some uuid =>
    match lookupReg uuid sessions with
    | none => (.error ("Session not found: " ++ session_id), sessions, [])
    | some _ =>
      match env.writeRes with
      | .error e => (.error e, sessions, [.channelWrite data])
      | .ok _ =>
        match env.flushRes with
        | .error e => (.error e, sessions, [.channelWrite data, .channelFlush])
        | .ok _ => (.ok (), sessions, [.channelWrite data, .channelFlush])

/-- Models `resize_terminal` (lib.rs lines 381-400): parse the UUID; on a
registered session request the PTY size change (`cols, rows` order as in
the source) and return `(rows, cols)`; on an unknown session return the
requested `(rows, cols)` untouched (UI sync only). -/
def resize_terminal (env : ChanEnv) (session_id : String) (rows cols : Nat)
    (sessions : Registry) : Except String (Nat × Nat) × Registry × List Event :=
  match parseUuid session_id with
  | none => (.error uuidParseError, sessions, [])
  | some uuid =>
    match lookupReg uuid sessions with
    | some _ =>
      (match env.ptySizeRes with
       | .error e => (.error e, sessions, [.requestPtySize cols rows])
       | .ok _ => (.ok (rows, cols), sessions, [.requestPtySize cols rows]))
    | none => (.ok (rows, cols), sessions, [])

/-- Models `close_session` (lib.rs lines 507-527): parse the UUID, remove
the registry entry; when one was present, send EOF, close and wait for
channel teardown with failures logged only; always return `Ok` past the
parse. -/
def close_session (session_id : String) (sessions : Registry) :
    Except String Unit × Registry × List Event :=
  match parseUuid session_id with
  | none => (.error uuidParseError, sessions, [])
  | some uuid =>
    match lookupReg uuid sessions with
    | some _ =>
      (.ok (), removeReg uuid sessions, [.sendEof, .channelClose, .waitClose])
    | none => (.ok (), sessions, [])

/-- Outcomes of the SFTP subsystem calls made by the filesystem commands:
`sftpInit` is the result of `session.sftp()` (the handle it would
create), the rest are per-operation results. -/
structure FsEnv where
  sftpInit : Except String Nat
  readdirRes : Except String (List (String × FileStat))
  mkdirRes : Except String Unit
  rmdirRes : Except String Unit
  unlinkRes : Except String Unit
  renameRes : Except String Unit
  statRes : Except String FileStat
  setstatRes : Except String Unit

/-- Models `ensure_sftp` (lib.rs lines 623-636): under the session's SFTP
lock, create the subsystem handle only when none is stored yet. Returns
the outcome, the updated session state, and the events performed (one
`sftpInit` exactly when a creation was attempted). -/
def ensure_sftp (sftpInit : Except String Nat) (st : SessionState) :
    Except String Unit × SessionState × List Event :=
  match st.sftp with
  | some _ => (.ok (), st, [])
  | none =>
    match sftpInit with
    | .error e => (.error ("Failed to initialize SFTP: " ++ e), st, [.sftpInit])
    | .ok h => (.ok (), { st with sftp := some h }, [.sftpInit])

/-- Models `list_directory` (lib.rs lines 562-621): parse the UUID, look
the session up, lazily create the SFTP handle when absent (inline, same
logic as `ensure_sftp`), read the directory, map entries through
`mkSftpFile` and sort with the dirs-first comparator. -/
def list_directory (env : FsEnv) (session_id path : String)
    (sessions : Registry) :
    Except String (List SftpFile) × Registry × List Event :=
  match parseUuid session_id with
  | none => (.error uuidParseError, sessions, [])
  | some uuid =>
    match lookupReg uuid sessions with
    | none => (.error "Session not found", sessions, [])
    | some st =>
      match st.sftp with
      | none =>
        (match env.sftpInit with
         | .error e =>
           (.error ("Failed to initialize SFTP: " ++ e), sessions, [.sftpInit])
         | .ok h =>
           let sessions1 := updateReg uuid { st with sftp := some h } sessions
           match env.readdirRes with
           | .error e => (.error e, sessions1, [.sftpInit, .readdir path])
           | .ok entries =>
             (.ok (sortFiles (entries.map fun e => mkSftpFile e.1 e.2)),
              sessions1, [.sftpInit, .readdir path]))
      | some _ =>
        match env.readdirRes with
        | .error e => (.error e, sessions, [.readdir path])
        | .ok entries =>
          (.ok (sortFiles (entries.map fun e => mkSftpFile e.1 e.2)),
           sessions, [.readdir path])

/-- Models `create_directory` (lib.rs lines 788-808): parse, look up,
then require an already-initialized SFTP handle (no lazy init here);
`mkdir` with mode 0o755. -/
def create_directory (env : FsEnv) (session_id path : String)
    (sessions : Registry) : Except String Unit × Registry × List Event :=
  match parseUuid session_id with
  | none => (.error uuidParseError, sessions, [])
  | some uuid =>
    match lookupReg uuid sessions with
    | none => (.error "Session not found", sessions, [])
    | some st =>
      match st.sftp with
      | some _ =>
        (match env.mkdirRes with
         | .error e => (.error e, sessions, [.mkdir path 0o755])
         | .ok _ => (.ok (), sessions, [.mkdir path 0o755]))
      | none => (.error "SFTP not initialized", sessions, [])

/-- Models `delete_item` (lib.rs lines 810-835): parse, look up, require
an initialized SFTP handle, then branch on the caller-supplied `is_dir`
flag between `rmdir` and `unlink`. -/
def delete_item (env : FsEnv) (session_id path : String) (is_dir : Bool)
    (sessions : Registry) : Except String Unit × Registry × List Event :=
  match parseUuid session_id with
  | none => (.error uuidParseError, sessions, [])
  | some uuid =>
    match lookupReg uuid sessions with
    | none => (.error "Session not found", sessions, [])
    | some st =>
      match st.sftp with
      | some _ =>
        if is_dir then
          match env.rmdirRes with
          | .error e => (.error e, sessions, [.rmdir path])
          | .ok _ => (.ok (), sessions, [.rmdir path])
        else
          match env.unlinkRes with
          | .error e => (.error e, sessions, [.unlink path])
          | .ok _ => (.ok (), sessions, [.unlink path])
      | none => (.error "SFTP not initialized", sessions, [])

/-- Models `chmod_item` (lib.rs lines 837-862): parse, look up, require
an initialized SFTP handle, `stat` the path, overwrite the permission
bits and `setstat`. -/
def chmod_item (env : FsEnv) (session_id path : String) (mode : Nat)
    (sessions : Registry) : Except String Unit × Registry × List Event :=
  match parseUuid session_id with
  | none => (.error uuidParseError, sessions, [])
  | some uuid =>
    match lookupReg uuid sessions with
    | none => (.error "Session not found", sessions, [])
    | some st =>
      match st.sftp with
      | some _ =>
        (match env.statRes with
         | .error e => (.error e, sessions, [.statPath path])
         | .ok _ =>
           match env.setstatRes with
           | .error e => (.error e, sessions, [.statPath path, .setstat path mode])
           | .ok _ => (.ok (), sessions, [.statPath path, .setstat path mode]))
      | none => (.error "SFTP not initialized", sessions, [])

/-- Models `rename_item` (lib.rs lines 864-885): parse, look up, require
an initialized SFTP handle, `rename`. -/
def rename_item (env : FsEnv) (session_id old_path new_path : String)
    (sessions : Registry) : Except String Unit × Registry × List Event :=
  match parseUuid session_id with
  | none => (.error uuidParseError, sessions, [])
  | some uuid =>
    match lookupReg uuid sessions with
    | none => (.error "Session not found", sessions, [])
    | some st =>
      match st.sftp with
      | some _ =>
        (match env.renameRes with
         | .error e => (.error e, sessions, [.rename old_path new_path])
         | .ok _ => (.ok (), sessions, [.rename old_path new_path]))
      | none => (.error "SFTP not initialized", sessions, [])

/-- Outcomes of the effectful calls a transfer makes. `reads` is the
sequence of non-empty chunks delivered by successive `read` calls before
end of stream (each at most the 32 KiB buffer); `readEnd` is what the
read loop sees after them: `ok` for the terminating zero-length read,
`error` for a read failure that aborts mid-transfer. `statSize` models
`remote_file.stat().ok().and_then(|s| s.size)` for a download;
`metadataLen` models `local_file.metadata().map(|m| m.len())` for an
upload. -/
structure XferEnv where
  sftpInit : Except String Nat
  openRemoteRes : Except String Unit
  createLocalRes : Except String Unit
  createRemoteRes : Except String Unit
  openLocalRes : Except String Unit
  statSize : Option Nat
  metadataLen : Option Nat
  reads : List (List Nat)
  readEnd : Except String Unit

/-- The chunked copy loop shared by `download_file` and `upload_file`
(lib.rs lines 683-707 and 754-778): write each chunk to the destination,
bump the transferred counter, and emit a `(transferred, total)` progress
snapshot after every chunk. Returns the destination bytes and the
progress snapshots, in order. -/
def transferLoop (total : Nat) : Nat → List (List Nat) → List Nat × List (Nat × Nat)
  | _, [] => ([], [])
  | transferred, c :: cs =>
    let t := transferred + c.length
    let p := transferLoop total t cs
    (c ++ p.1, (t, total) :: p.2)

/-- Models `download_file` (lib.rs lines 642-715): parse the UUID, look
the session up, `ensure_sftp`, open the remote file, create the local
file, take the remote stat size as the total (0 if unknown), then run the
chunked copy loop. Returns the outcome, the updated registry, the bytes
written to the local file, and the progress snapshots. -/
def download_file (env : XferEnv) (session_id remote_path local_path : String)
    (sessions : Registry) :
    Except String Unit × Registry × List Nat × List (Nat × Nat) :=
  match parseUuid session_id with
  | none => (.error invalidSessionIdError, sessions, [], [])
  | some uuid =>
    match lookupReg uuid sessions with
    | none => (.error "Session not found", sessions, [], [])
    | some st =>
      match ensure_sftp env.sftpInit st with
      | (.error e, _, _) => (.error e, sessions, [], [])
      | (.ok _, st1, _) =>
        let sessions1 := updateReg uuid st1 sessions
        match env.openRemoteRes with
        | .error e => (.error e, sessions1, [], [])
        | .ok _ =>
          match env.createLocalRes with
          | .error e => (.error e, sessions1, [], [])
          | .ok _ =>
            let total := env.statSize.getD 0
            let p := transferLoop total 0 env.reads
            match env.readEnd with
            | .error e => (.error e, sessions1, p.1, p.2)
            | .ok _ => (.ok (), sessions1, p.1, p.2)

/-- Models `upload_file` (lib.rs lines 717-786): parse the UUID, look the
session up, `ensure_sftp`, create the remote file, open the local file,
take the local metadata length as the total (0 if unknown), then run the
chunked copy loop reading from the local file. Returns the outcome, the
updated registry, the bytes written to the remote file, and the progress
snapshots. -/
def upload_file (env : XferEnv) (session_id local_path remote_path : String)
    (sessions : Registry) :
    Except String Unit × Registry × List Nat × List (Nat × Nat) :=
  match parseUuid session_id with
  | none => (.error invalidSessionIdError, sessions, [], [])
  | some uuid =>
    match lookupReg uuid sessions with
    | none => (.error "Session not found", sessions, [], [])
    | some st =>
      match ensure_sftp env.sftpInit st with
      | (.error e, _, _) => (.error e, sessions, [], [])
      | (.ok _, st1, _) =>
        let sessions1 := updateReg uuid st1 sessions
        match env.createRemoteRes with
        | .error e => (.error e, sessions1, [], [])
        | .ok _ =>
          match env.openLocalRes with
          | .error e => (.error e, sessions1, [], [])
          | .ok _ =>
            let total := env.metadataLen.getD 0
            let p := transferLoop total 0 env.reads
            match env.readEnd with
            | .error e => (.error e, sessions1, p.1, p.2)
            | .ok _ => (.ok (), sessions1, p.1, p.2)

/-! Concrete sample values used to instantiate the theorems below. -/

/-- A well-formed canonical UUID string. -/
def uuid0 : String := "123e4567-e89b-12d3-a456-426614174000"

/-- A second well-formed UUID string, distinct from `uuid0`. -/
def uuid1 : String := "00000000-0000-0000-0000-000000000001"

/-- A session whose SFTP subsystem has not been initialized. -/
def sessionNoSftp : SessionState := { sftp := none }

/-- A session whose SFTP subsystem is initialized (handle 1). -/
def sessionWithSftp : SessionState := { sftp := some 1 }

/-- A registry holding one session, SFTP uninitialized. -/
def reg0 : Registry := [(uuid0, sessionNoSftp)]

/-- A registry holding one session, SFTP initialized. -/
def regInit : Registry := [(uuid0, sessionWithSftp)]

/-- A connect environment in which every library call succeeds. -/
def envAllOk : ConnEnv :=
  { tcpConnect := .ok ()
    sessionNew := .ok ()
    handshake := .ok ()
    authKey := .ok ()
    authPassword := .ok ()
    authenticated := true
    channelSession := .ok ()
    requestPty := .ok ()
    shell := .ok ()
    newSessionId := uuid0 }

/-- A connection request supplying neither a password nor a key path. -/
def detailsNoCred : ConnectionDetails :=
  { host := "example.com"
    port := none
    username := "root"
    password := none
    private_key_path := none
    passphrase := none
    keepalive_interval := none
    timeout := none }

/-- A connection request authenticating by password. -/
def detailsPw : ConnectionDetails := { detailsNoCred with password := some "pw" }

/-- A channel environment in which write/flush/resize succeed. -/
def chanEnvOk : ChanEnv :=
  { writeRes := .ok (), flushRes := .ok (), ptySizeRes := .ok () }

/-- A filesystem environment in which every SFTP call succeeds. -/
def fsEnvOk : FsEnv :=
  { sftpInit := .ok 1
    readdirRes := .ok []
    mkdirRes := .ok ()
    rmdirRes := .ok ()
    unlinkRes := .ok ()
    renameRes := .ok ()
    statRes := .ok ⟨some 420, some 1, some 2, false⟩
    setstatRes := .ok () }

/-- A readdir result matching the spec's §8 sorting example:
`[("b", file), ("a", dir), ("c", dir)]`. -/
def fsEnvSortExample : FsEnv :=
  { fsEnvOk with
      readdirRes := .ok
        [("b", ⟨some 420, some 1, some 2, false⟩),
         ("a", ⟨some 493, none, none, true⟩),
         ("c", ⟨some 493, none, none, true⟩)] }

/-- The sorted listing `fsEnvSortExample` produces: `a` (dir), `c` (dir),
`b` (file); octal 420 = 0o644, 493 = 0o755. -/
def sortExampleFiles : List SftpFile :=
  [{ name := "a", is_dir := true, size := 0, permissions := "755", modified := 0 },
   { name := "c", is_dir := true, size := 0, permissions := "755", modified := 0 },
   { name := "b", is_dir := false, size := 1, permissions := "644", modified := 2 }]

/-- A readdir result holding one file whose permission bits are 0o1000
(decimal 512), the smallest value whose octal rendering needs four
digits; real SFTP stats carry file-type bits (for instance 0o100644), so
such values are the common case. -/
def fsEnvWidePerm : FsEnv :=
  { fsEnvOk with readdirRes := .ok [("f", ⟨some 512, none, none, false⟩)] }

/-- The single entry of the listing `fsEnvWidePerm` produces. -/
def widePermFile0 : SftpFile :=
  { name := "f", is_dir := false, size := 0, permissions := "1000", modified := 0 }

/-- The listing `fsEnvWidePerm` produces. -/
def widePermFiles : List SftpFile := [widePermFile0]

/-- A transfer environment delivering a 3-byte remote file in two chunks,
with every library call succeeding and `stat` reporting the true size. -/
def xferEnvOk : XferEnv :=
  { sftpInit := .ok 1
    openRemoteRes := .ok ()
    createLocalRes := .ok ()
    createRemoteRes := .ok ()
    openLocalRes := .ok ()
    statSize := some 3
    metadataLen := some 3
    reads := [[7], [8, 9]]
    readEnd := .ok () }

/-! Helper lemmas about the listing sort. -/

theorem nameLe_total : ∀ as bs : List Char, nameLe as bs = true ∨ nameLe bs as = true := by
  intro as
  induction as with
  | nil => intro bs; left; rfl
  | cons a as ih =>
    intro bs
    cases bs with
    | nil => right; rfl
    | cons b bs =>
      by_cases h1 : a.toNat < b.toNat
      · left; simp [nameLe, h1]
      · by_cases h2 : b.toNat < a.toNat
        · right; simp [nameLe, h2]
        · rcases ih bs with h | h
          · left; simp [nameLe, h1, h2, h]
          · right; simp [nameLe, h1, h2, h]

theorem nameLe_trans :
    ∀ as bs cs : List Char,
      nameLe as bs = true → nameLe bs cs = true → nameLe as cs = true := by
  intro as
  induction as with
  | nil => intro bs cs _ _; rfl
  | cons a as ih =>
    intro bs cs h1 h2
    cases bs with
    | nil => simp [nameLe] at h1
    | cons b bs =>
      cases cs with
      | nil => simp [nameLe] at h2
      | cons c cs =>
        simp only [nameLe] at h1 h2 ⊢
        rcases Nat.lt_trichotomy a.toNat b.toNat with hab | hab | hab
        · rcases Nat.lt_trichotomy b.toNat c.toNat with hbc | hbc | hbc
          · have hac : a.toNat < c.toNat := by omega
            simp [hac]
          · have hac : a.toNat < c.toNat := by omega
            simp [hac]
          · have hn : ¬ b.toNat < c.toNat := by omega
            simp [hn, hbc] at h2
        · rcases Nat.lt_trichotomy b.toNat c.toNat with hbc | hbc | hbc
          · have hac : a.toNat < c.toNat := by omega
            simp [hac]
          · have hac : ¬ a.toNat < c.toNat := by omega
            have hca : ¬ c.toNat < a.toNat := by omega
            have h1a : ¬ a.toNat < b.toNat := by omega
            have h1b : ¬ b.toNat < a.toNat := by omega
            have h2a : ¬ b.toNat < c.toNat := by omega
            have h2b : ¬ c.toNat < b.toNat := by omega
            simp [h1a, h1b] at h1
            simp [h2a, h2b] at h2
            simp [hac, hca]
            exact ih bs cs h1 h2
          · have hn : ¬ b.toNat < c.toNat := by omega
            simp [hn, hbc] at h2
        · have hn : ¬ a.toNat < b.toNat := by omega
          simp [hn, hab] at h1

theorem fileLe_total (a b : SftpFile) : fileLe a b = true ∨ fileLe b a = true := by
  unfold fileLe
  cases ha : a.is_dir <;> cases hb : b.is_dir <;> simp
  · exact nameLe_total a.name.data b.name.data
  · exact nameLe_total a.name.data b.name.data

theorem fileLe_trans {a b c : SftpFile}
    (h1 : fileLe a b = true) (h2 : fileLe b c = true) : fileLe a c = true := by
  unfold fileLe at h1 h2 ⊢
  cases ha : a.is_dir <;> cases hb : b.is_dir <;> cases hc : c.is_dir <;>
    simp_all
  · exact nameLe_trans _ _ _ h1 h2
  · exact nameLe_trans _ _ _ h1 h2

/-- What the comparator guarantees about each ordered pair: a file never
precedes a directory, and equal-type entries are in name order. -/
theorem fileLe_spec {a b : SftpFile} (h : fileLe a b = true) :
    (a.is_dir = false → b.is_dir = false) ∧
    (a.is_dir = b.is_dir → nameLe a.name.data b.name.data = true) := by
  unfold fileLe at h
  cases ha : a.is_dir <;> cases hb : b.is_dir <;> simp_all

theorem insertFile_perm (a : SftpFile) (l : List SftpFile) :
    (insertFile a l).Perm (a :: l) := by
  induction l with
  | nil => exact .refl _
  | cons b rest ih =>
    rw [insertFile]
    split
    · exact .refl _
    · exact (ih.cons b).trans (List.Perm.swap a b rest)

theorem sortFiles_perm (l : List SftpFile) : (sortFiles l).Perm l := by
  induction l with
  | nil => exact .refl _
  | cons a rest ih =>
    exact (insertFile_perm a (sortFiles rest)).trans (ih.cons a)

theorem insertFile_pairwise (a : SftpFile) (l : List SftpFile)
    (h : l.Pairwise (fun x y => fileLe x y = true)) :
    (insertFile a l).Pairwise (fun x y => fileLe x y = true) := by
  induction l with
  | nil => simp [insertFile]
  | cons b rest ih =>
    rw [insertFile]
    rw [List.pairwise_cons] at h
    by_cases hab : fileLe a b = true
    · rw [if_pos hab, List.pairwise_cons]
      refine ⟨?_, List.pairwise_cons.mpr h⟩
      intro x hx
      rcases List.mem_cons.mp hx with rfl | hx
      · exact hab
      · exact fileLe_trans hab (h.1 x hx)
    · rw [if_neg hab, List.pairwise_cons]
      have hba : fileLe b a = true := (fileLe_total a b).resolve_left hab
      refine ⟨?_, ih h.2⟩
      intro x hx
      rcases List.mem_cons.mp ((insertFile_perm a rest).mem_iff.mp hx) with h' | h'
      · exact h' ▸ hba
      · exact h.1 x h'

theorem sortFiles_pairwise (l : List SftpFile) :
    (sortFiles l).Pairwise (fun x y => fileLe x y = true) := by
  induction l with
  | nil => simp [sortFiles]
  | cons a rest ih => exact insertFile_pairwise a (sortFiles rest) ih

/-- Any successful listing is the dirs-first sort of the readdir entries
mapped through `mkSftpFile`. -/
theorem list_directory_ok_shape
    (env : FsEnv) (sid path : String) (sessions reg' : Registry)
    (files : List SftpFile) (ev : List Event)
    (h : list_directory env sid path sessions = (.ok files, reg', ev)) :
    ∃ entries, env.readdirRes = .ok entries ∧
      files = sortFiles (entries.map fun e => mkSftpFile e.1 e.2) := by
  unfold list_directory at h
  repeat' split at h
  all_goals simp_all

/-- C3: every successful directory listing is sorted with all
directory-typed entries before all file-typed entries, and entries of
equal type in lexicographic name order. -/
theorem list_directory_sorted
    (env : FsEnv) (sid path : String) (sessions reg' : Registry)
    (files : List SftpFile) (ev : List Event)
    (h : list_directory env sid path sessions = (.ok files, reg', ev)) :
    files.Pairwise (fun a b =>
      (a.is_dir = false → b.is_dir = false) ∧
      (a.is_dir = b.is_dir → nameLe a.name.data b.name.data = true)) := by
  obtain ⟨entries, -, hfiles⟩ := list_directory_ok_shape env sid path sessions reg' files ev h
  subst hfiles
  exact (sortFiles_pairwise _).imp fun hle => fileLe_spec hle

/-- C3 witness: the spec's §8 example. Input entries
`[("b", file), ("a", dir), ("c", dir)]` list as `a (dir), c (dir),
b (file)`, satisfying the sorting invariant. -/
theorem list_directory_sorted_witness :
    sortExampleFiles.Pairwise (fun a b =>
      (a.is_dir = false → b.is_dir = false) ∧
      (a.is_dir = b.is_dir → nameLe a.name.data b.name.data = true)) :=
  list_directory_sorted fsEnvSortExample uuid0 "/" regInit regInit
    sortExampleFiles [.readdir "/"] (by rfl)

set_option maxRecDepth 100000 in
/-- Permission values below 0o1000 render as exactly three octal
digits. -/
theorem renderPerm_three_digits : ∀ p : Nat, p < 512 → (renderPerm (some p)).length = 3 := by
  decide

/-- C8 counterexample: a listing whose entry has permission bits 0o1000
(decimal 512) succeeds with the permission field "1000" — four octal
digits, not three. The rendering is octal zero-padded to a MINIMUM of
three digits, so the claim's "three-digit octal" fails for any
permission value of 0o1000 or above (including realistic `st_mode`
values such as 0o100644). -/
theorem list_directory_perm_not_three_digits :
    list_directory fsEnvWidePerm uuid0 "/" regInit =
      (.ok widePermFiles, regInit, [.readdir "/"]) ∧
    widePermFile0.permissions = "1000" ∧
    widePermFile0.permissions.length = 4 := ⟨rfl, rfl, by decide⟩

/-- C8 amended: every entry of a successful listing renders its
permission bits via `renderPerm` — octal zero-padded to a minimum of
three digits (exactly three when the value is below 0o1000), with the
placeholder "---------" when the bits are unknown — and reports 0 for
unknown size and modification time. -/
theorem list_directory_entry_fields
    (env : FsEnv) (sid path : String) (sessions reg' : Registry)
    (files : List SftpFile) (ev : List Event)
    (h : list_directory env sid path sessions = (.ok files, reg', ev)) :
    ∀ f ∈ files, ∃ entries e, env.readdirRes = .ok entries ∧ e ∈ entries ∧
      f = mkSftpFile e.1 e.2 ∧
      f.permissions = renderPerm e.2.perm ∧
      f.size = e.2.size.getD 0 ∧
      f.modified = e.2.mtime.getD 0 ∧
      (e.2.perm = none → f.permissions = "---------") ∧
      (∀ p, e.2.perm = some p → p < 512 → f.permissions.length = 3) := by
  intro f hf
  obtain ⟨entries, hrd, hfiles⟩ := list_directory_ok_shape env sid path sessions reg' files ev h
  subst hfiles
  obtain ⟨e, he, hfe⟩ := List.mem_map.mp ((sortFiles_perm _).mem_iff.mp hf)
  refine ⟨entries, e, hrd, he, hfe.symm, ?_, ?_, ?_, ?_, ?_⟩
  · rw [← hfe]; rfl
  · rw [← hfe]; rfl
  · rw [← hfe]; rfl
  · intro hperm
    rw [← hfe]
    show renderPerm e.2.perm = "---------"
    rw [hperm]
    rfl
  · intro p hperm hp
    rw [← hfe]
    show (renderPerm e.2.perm).length = 3
    rw [hperm]
    exact renderPerm_three_digits p hp

/-- C8 amended witness: the `fsEnvWidePerm` listing instantiates the
amended field contract at its single entry. -/
theorem list_directory_entry_fields_witness :
    ∃ entries e, fsEnvWidePerm.readdirRes = .ok entries ∧ e ∈ entries ∧
      widePermFile0 = mkSftpFile e.1 e.2 ∧
      widePermFile0.permissions = renderPerm e.2.perm ∧
      widePermFile0.size = e.2.size.getD 0 ∧
      widePermFile0.modified = e.2.mtime.getD 0 ∧
      (e.2.perm = none → widePermFile0.permissions = "---------") ∧
      (∀ p, e.2.perm = some p → p < 512 → widePermFile0.permissions.length = 3) :=
  list_directory_entry_fields fsEnvWidePerm uuid0 "/" regInit regInit
    widePermFiles [.readdir "/"] (by rfl) widePermFile0 (by decide)

/-! Helper lemmas about the chunked transfer loop. -/

/-- The destination receives exactly the concatenation of the chunks, in
order. -/
theorem transferLoop_dest (total : Nat) :
    ∀ (cs : List (List Nat)) (t : Nat), (transferLoop total t cs).1 = cs.join := by
  intro cs
  induction cs with
  | nil => intro t; rfl
  | cons c cs ih =>
    intro t
    simp [transferLoop, ih]

/-- One progress snapshot per chunk. -/
theorem transferLoop_length (total : Nat) :
    ∀ (cs : List (List Nat)) (t : Nat), (transferLoop total t cs).2.length = cs.length := by
  intro cs
  induction cs with
  | nil => intro t; rfl
  | cons c cs ih =>
    intro t
    simp [transferLoop, ih]

/-- The last snapshot carries the full transferred byte count. -/
theorem transferLoop_last (total : Nat) :
    ∀ (cs : List (List Nat)) (t : Nat), cs ≠ [] →
      (transferLoop total t cs).2.getLast? = some (t + cs.join.length, total) := by
  intro cs
  induction cs with
  | nil => intro t h; exact absurd rfl h
  | cons c cs ih =>
    intro t _
    by_cases hcs : cs = []
    · subst hcs
      show [(t + c.length, total)].getLast? = some (t + (c :: []).join.length, total)
      simp
    · have ihc := ih (t + c.length) hcs
      have hrest : (transferLoop total (t + c.length) cs).2 ≠ [] := by
        intro hempty
        have hl := transferLoop_length total cs (t + c.length)
        rw [hempty] at hl
        exact hcs (List.length_eq_zero.mp hl.symm)
      show ((t + c.length, total) :: (transferLoop total (t + c.length) cs).2).getLast? =
        some (t + (c :: cs).join.length, total)
      obtain ⟨r, rs, hr⟩ := List.exists_cons_of_ne_nil hrest
      rw [hr, List.getLast?_cons_cons, ← hr, ihc]
      simp [Nat.add_assoc]

/-- With every chunk non-empty, the transferred counts are strictly
increasing, starting above the initial counter. -/
theorem transferLoop_chain (total : Nat) :
    ∀ (cs : List (List Nat)) (t : Nat), (∀ c ∈ cs, c ≠ []) →
      List.Chain' (· < ·) (t :: (transferLoop total t cs).2.map Prod.fst) := by
  intro cs
  induction cs with
  | nil =>
    intro t _
    show List.Chain' (· < ·) [t]
    exact List.chain'_singleton t
  | cons c cs ih =>
    intro t hcs
    show List.Chain' (· < ·)
      (t :: (t + c.length) :: (transferLoop total (t + c.length) cs).2.map Prod.fst)
    rw [List.chain'_cons]
    refine ⟨?_, ih (t + c.length) fun x hx => hcs x (List.mem_cons_of_mem c hx)⟩
    have hpos : 0 < c.length := List.length_pos.mpr (hcs c (List.mem_cons_self c cs))
    omega

/-- C4: a download that completes without error writes exactly the
remote file's bytes (the chunks concatenated in order) to the local
file; when the remote stat reports the true size `N`, the last progress
snapshot is `(N, N)`, and the transferred counts increase strictly. -/
theorem download_file_exact
    (env : XferEnv) (sid rp lp : String) (sessions reg' : Registry)
    (loc : List Nat) (prog : List (Nat × Nat)) (N : Nat)
    (hok : download_file env sid rp lp sessions = (.ok (), reg', loc, prog))
    (hstat : env.statSize = some N)
    (hN : env.reads.join.length = N)
    (hch : ∀ c ∈ env.reads, c ≠ []) :
    loc = env.reads.join ∧ loc.length = N ∧
    (env.reads ≠ [] → prog.getLast? = some (N, N)) ∧
    List.Chain' (· < ·) (prog.map Prod.fst) := by
  have hshape : loc = (transferLoop (env.statSize.getD 0) 0 env.reads).1 ∧
      prog = (transferLoop (env.statSize.getD 0) 0 env.reads).2 := by
    unfold download_file at hok
    repeat' split at hok
    all_goals simp_all
  obtain ⟨hloc, hprog⟩ := hshape
  rw [hstat] at hloc hprog
  refine ⟨?_, ?_, ?_, ?_⟩
  · rw [hloc, transferLoop_dest]
  · rw [hloc, transferLoop_dest, hN]
  · intro hne
    rw [hprog, transferLoop_last ((some N : Option Nat).getD 0) env.reads 0 hne]
    simp [hN]
  · rw [hprog]
    exact (transferLoop_chain _ env.reads 0 hch).tail

/-- C4 witness: `xferEnvOk` delivers a 3-byte file in chunks `[7]` and
`[8, 9]`; the local file holds exactly those 3 bytes and the progress
snapshots are `(1, 3)` then `(3, 3)`. -/
theorem download_file_exact_witness :
    ([7, 8, 9] : List Nat) = xferEnvOk.reads.join ∧
    ([7, 8, 9] : List Nat).length = 3 ∧
    ([(1, 3), (3, 3)] : List (Nat × Nat)).getLast? = some (3, 3) ∧
    List.Chain' (· < ·) (([(1, 3), (3, 3)] : List (Nat × Nat)).map Prod.fst) := by
  have h := download_file_exact xferEnvOk uuid0 "/r" "/l" reg0 regInit
    [7, 8, 9] [(1, 3), (3, 3)] 3 (by rfl) (by rfl) (by rfl) (by decide)
  exact ⟨h.1, h.2.1, h.2.2.1 (by decide), h.2.2.2⟩

/-- C5: closing a well-formed session identifier that is not registered
returns success, leaves the registry untouched and performs no channel
teardown; and for any well-formed identifier (registered or not) close
reports success to the caller. An identifier that fails UUID parsing is
outside this contract (see the malformed-identifier theorem). -/
theorem close_session_unknown_noop :
    (∀ sid uuid sessions, parseUuid sid = some uuid → lookupReg uuid sessions = none →
      close_session sid sessions = (.ok (), sessions, [])) ∧
    (∀ sid uuid sessions, parseUuid sid = some uuid →
      (close_session sid sessions).1 = .ok ()) := by
  constructor
  · intro sid uuid sessions hp habs
    simp [close_session, hp, habs]
  · intro sid uuid sessions hp
    simp only [close_session, hp]
    cases lookupReg uuid sessions <;> rfl

/-- C5 witness: closing `uuid1` against an empty registry. -/
theorem close_session_unknown_noop_witness :
    close_session uuid1 [] = (.ok (), [], []) :=
  close_session_unknown_noop.1 uuid1 uuid1 [] (by rfl) (by rfl)

/-- C6: resizing a well-formed but unregistered session identifier
returns exactly the requested `(rows, cols)`, raises no error, performs
no channel call and changes no state. -/
theorem resize_terminal_unknown (env : ChanEnv) (sid uuid : String) (rows cols : Nat)
    (sessions : Registry) (hp : parseUuid sid = some uuid)
    (habs : lookupReg uuid sessions = none) :
    resize_terminal env sid rows cols sessions = (.ok (rows, cols), sessions, []) := by
  simp [resize_terminal, hp, habs]

/-- C6 witness: resizing `uuid1` to 24×80 against an empty registry. -/
theorem resize_terminal_unknown_witness :
    resize_terminal chanEnvOk uuid1 24 80 [] = (.ok (24, 80), [], []) :=
  resize_terminal_unknown chanEnvOk uuid1 uuid1 24 80 [] (by rfl) (by rfl)

/-- C7: `ensure_sftp` is idempotent. From an uninitialized session with a
succeeding subsystem creation, the first call performs exactly one
creation (`[.sftpInit]`) and stores the handle; the second call performs
none and leaves the stored handle unchanged; in general any call on an
initialized session is a no-op. -/
theorem ensure_sftp_idempotent (init : Except String Nat) (st : SessionState) (h : Nat)
    (hnone : st.sftp = none) (hinit : init = .ok h) :
    ensure_sftp init st = (.ok (), { st with sftp := some h }, [.sftpInit]) ∧
    ensure_sftp init { st with sftp := some h } = (.ok (), { st with sftp := some h }, []) ∧
    (∀ init' st' h', st'.sftp = some h' → ensure_sftp init' st' = (.ok (), st', [])) := by
  subst hinit
  refine ⟨?_, rfl, ?_⟩
  · unfold ensure_sftp
    rw [hnone]
  · intro init' st' h' hsome
    unfold ensure_sftp
    rw [hsome]

/-- C7 witness: the two calls from an uninitialized session. -/
theorem ensure_sftp_idempotent_witness :
    ensure_sftp (.ok 5) sessionNoSftp =
      (.ok (), { sessionNoSftp with sftp := some 5 }, [.sftpInit]) ∧
    ensure_sftp (.ok 5) { sessionNoSftp with sftp := some 5 } =
      (.ok (), { sessionNoSftp with sftp := some 5 }, []) := by
  have h := ensure_sftp_idempotent (.ok 5) sessionNoSftp 5 (by rfl) (by rfl)
  exact ⟨h.1, h.2.1⟩

/-- C9: every session-scoped operation rejects an identifier that fails
UUID parsing with an error, before any registry lookup or I/O: the
registry is returned untouched and no event is performed. The terminal
commands surface the parse error text, the transfers surface
`TransferError::InvalidSessionId`; `resize_terminal` and `close_session`
degrade gracefully only for well-formed unknown identifiers. -/
theorem malformed_session_id_rejected (sid : String) (hbad : parseUuid sid = none) :
    (∀ env data sessions,
      send_terminal_input env sid data sessions = (.error uuidParseError, sessions, [])) ∧
    (∀ env rows cols sessions,
      resize_terminal env sid rows cols sessions = (.error uuidParseError, sessions, [])) ∧
    (∀ sessions, close_session sid sessions = (.error uuidParseError, sessions, [])) ∧
    (∀ env path sessions,
      list_directory env sid path sessions = (.error uuidParseError, sessions, [])) ∧
    (∀ env rp lp sessions,
      download_file env sid rp lp sessions = (.error invalidSessionIdError, sessions, [], [])) ∧
    (∀ env lp rp sessions,
      upload_file env sid lp rp sessions = (.error invalidSessionIdError, sessions, [], [])) ∧
    (∀ env path sessions,
      create_directory env sid path sessions = (.error uuidParseError, sessions, [])) ∧
    (∀ env path d sessions,
      delete_item env sid path d sessions = (.error uuidParseError, sessions, [])) ∧
    (∀ env path mode sessions,
      chmod_item env sid path mode sessions = (.error uuidParseError, sessions, [])) ∧
    (∀ env p q sessions,
      rename_item env sid p q sessions = (.error uuidParseError, sessions, [])) := by
  refine ⟨?_, ?_, ?_, ?_, ?_, ?_, ?_, ?_, ?_, ?_⟩
  · intro env data sessions
    unfold send_terminal_input
    rw [hbad]
  · intro env rows cols sessions
    unfold resize_terminal
    rw [hbad]
  · intro sessions
    unfold close_session
    rw [hbad]
  · intro env path sessions
    unfold list_directory
    rw [hbad]
  · intro env rp lp sessions
    unfold download_file
    rw [hbad]
  · intro env lp rp sessions
    unfold upload_file
    rw [hbad]
  · intro env path sessions
    unfold create_directory
    rw [hbad]
  · intro env path d sessions
    unfold delete_item
    rw [hbad]
  · intro env path mode sessions
    unfold chmod_item
    rw [hbad]
  · intro env p q sessions
    unfold rename_item
    rw [hbad]

/-- C9 witness: the string "not-a-uuid" is rejected by
`send_terminal_input` without touching the registry. -/
theorem malformed_session_id_rejected_witness :
    send_terminal_input chanEnvOk "not-a-uuid" "ls\n" reg0 =
      (.error uuidParseError, reg0, []) :=
  (malformed_session_id_rejected "not-a-uuid" (by rfl)).1 chanEnvOk "ls\n" reg0

/-- C2 counterexample: a registered session whose SFTP subsystem is
uninitialized, in an environment where initialization would succeed
(`fsEnvOk.sftpInit = .ok 1`); `create_directory` nevertheless fails with
"SFTP not initialized" and performs no initialization, contradicting the
claim that every filesystem operation triggers init on demand. -/
theorem create_directory_no_lazy_init :
    fsEnvOk.sftpInit = .ok 1 ∧
    create_directory fsEnvOk uuid0 "/newdir" reg0 =
      (.error "SFTP not initialized", reg0, []) :=
  ⟨rfl, rfl⟩

/-- C2 amended: only `list_directory`, `download_file` and `upload_file`
initialize the SFTP subsystem on demand; `create_directory`,
`delete_item`, `chmod_item` and `rename_item` fail with
"SFTP not initialized" (registry untouched, no SFTP call attempted) when
the subsystem has not been initialized. -/
theorem sftp_lazy_init_only_some_ops :
    (∀ (env : FsEnv) sid uuid path sessions st, parseUuid sid = some uuid →
      lookupReg uuid sessions = some st → st.sftp = none →
      create_directory env sid path sessions =
        (.error "SFTP not initialized", sessions, []) ∧
      (∀ d, delete_item env sid path d sessions =
        (.error "SFTP not initialized", sessions, [])) ∧
      (∀ mode, chmod_item env sid path mode sessions =
        (.error "SFTP not initialized", sessions, [])) ∧
      (∀ q, rename_item env sid path q sessions =
        (.error "SFTP not initialized", sessions, []))) ∧
    (∀ (env : FsEnv) sid uuid path sessions st h, parseUuid sid = some uuid →
      lookupReg uuid sessions = some st → st.sftp = none → env.sftpInit = .ok h →
      list_directory env sid path sessions =
        ((match env.readdirRes with
          | .ok entries => .ok (sortFiles (entries.map fun e => mkSftpFile e.1 e.2))
          | .error e => .error e),
         updateReg uuid { st with sftp := some h } sessions,
         [.sftpInit, .readdir path])) ∧
    (∀ (env : XferEnv) sid uuid rp lp sessions st h, parseUuid sid = some uuid →
      lookupReg uuid sessions = some st → st.sftp = none → env.sftpInit = .ok h →
      (download_file env sid rp lp sessions).2.1 =
        updateReg uuid { st with sftp := some h } sessions) ∧
    (∀ (env : XferEnv) sid uuid lp rp sessions st h, parseUuid sid = some uuid →
      lookupReg uuid sessions = some st → st.sftp = none → env.sftpInit = .ok h →
      (upload_file env sid lp rp sessions).2.1 =
        updateReg uuid { st with sftp := some h } sessions) := by
  refine ⟨?_, ?_, ?_, ?_⟩
  · intro env sid uuid path sessions st hp hlk hsftp
    refine ⟨?_, ?_, ?_, ?_⟩
    · simp [create_directory, hp, hlk, hsftp]
    · intro d
      simp [delete_item, hp, hlk, hsftp]
    · intro mode
      simp [chmod_item, hp, hlk, hsftp]
    · intro q
      simp [rename_item, hp, hlk, hsftp]
  · intro env sid uuid path sessions st h hp hlk hsftp hinit
    simp only [list_directory, hp, hlk, hsftp, hinit]
    cases hrd : env.readdirRes <;> simp [hrd]
  · intro env sid uuid rp lp sessions st h hp hlk hsftp hinit
    have he : ensure_sftp env.sftpInit st =
        (.ok (), { st with sftp := some h }, [.sftpInit]) := by
      simp [ensure_sftp, hsftp, hinit]
    simp only [download_file, hp, hlk, he]
    cases h1 : env.openRemoteRes <;> cases h2 : env.createLocalRes <;>
      cases h3 : env.readEnd <;> simp [h1, h2, h3]
  · intro env sid uuid lp rp sessions st h hp hlk hsftp hinit
    have he : ensure_sftp env.sftpInit st =
        (.ok (), { st with sftp := some h }, [.sftpInit]) := by
      simp [ensure_sftp, hsftp, hinit]
    simp only [upload_file, hp, hlk, he]
    cases h1 : env.createRemoteRes <;> cases h2 : env.openLocalRes <;>
      cases h3 : env.readEnd <;> simp [h1, h2, h3]

/-- C2 amended witness: with `fsEnvOk` and the uninitialized session of
`reg0`, `create_directory` fails without initializing while
`list_directory` initializes on demand and succeeds. -/
theorem sftp_lazy_init_only_some_ops_witness :
    create_directory fsEnvOk uuid0 "/d" reg0 =
      (.error "SFTP not initialized", reg0, []) ∧
    list_directory fsEnvOk uuid0 "/" reg0 =
      (.ok [], regInit, [.sftpInit, .readdir "/"]) := by
  have h1 := (sftp_lazy_init_only_some_ops.1 fsEnvOk uuid0 uuid0 "/d" reg0
    sessionNoSftp (by rfl) (by rfl) (by rfl)).1
  have h2 := sftp_lazy_init_only_some_ops.2.1 fsEnvOk uuid0 uuid0 "/" reg0
    sessionNoSftp 1 (by rfl) (by rfl) (by rfl) (by rfl)
  exact ⟨h1, h2.trans (by rfl)⟩

/-! Helper lemmas about `connect_ssh`. -/

theorem keepaliveEvents_shape (keep : Option Nat) :
    ∀ e ∈ keepaliveEvents keep, ∃ k, e = Event.setKeepalive k := by
  intro e he
  cases keep with
  | none => cases he
  | some k =>
    by_cases hk : 0 < k
    · simp [keepaliveEvents, hk] at he
      exact ⟨k, he⟩
    · simp [keepaliveEvents, hk] at he

theorem keepaliveEvents_only (keep : Option Nat) (e : Event)
    (hne : ∀ k, e ≠ Event.setKeepalive k) : e ∉ keepaliveEvents keep := by
  intro hmem
  obtain ⟨k, hk⟩ := keepaliveEvents_shape keep e hmem
  exact hne k hk

/-- When the post-authentication tail fails, the registry is untouched
and the events it adds contain no registry insertion and no relay
spawn. -/
theorem connectAfterAuth_error (env : ConnEnv) (tt : Option String)
    (sessions : Registry) (ev : List Event)
    (h : (connectAfterAuth env tt sessions ev).1.isOk = false) :
    (connectAfterAuth env tt sessions ev).2.1 = sessions ∧
    ∃ extra, (connectAfterAuth env tt sessions ev).2.2 = ev ++ extra ∧
      (∀ id, Event.registryInsert id ∉ extra) ∧ Event.relaySpawn ∉ extra := by
  cases hauth : env.authenticated with
  | false =>
    have hres : connectAfterAuth env tt sessions ev =
        (.error "Authentication failed", sessions, ev ++ [.logAttempt "Failed (Auth)"]) := by
      simp [connectAfterAuth, hauth]
    rw [hres]
    exact ⟨rfl, [.logAttempt "Failed (Auth)"], rfl, by simp, by simp⟩
  | true =>
    cases hcs : env.channelSession with
    | error e =>
      have hres : connectAfterAuth env tt sessions ev =
          (.error e, sessions, ev ++ [.logAttempt "Success", .channelOpen]) := by
        simp [connectAfterAuth, hauth, hcs]
      rw [hres]
      exact ⟨rfl, [.logAttempt "Success", .channelOpen], rfl, by simp, by simp⟩
    | ok u =>
      cases hrp : env.requestPty with
      | error e =>
        have hres : connectAfterAuth env tt sessions ev =
            (.error e, sessions,
             ev ++ [.logAttempt "Success", .channelOpen,
                    .requestPty (tt.getD "xterm-256color")]) := by
          simp [connectAfterAuth, hauth, hcs, hrp]
        rw [hres]
        exact ⟨rfl,
          [.logAttempt "Success", .channelOpen, .requestPty (tt.getD "xterm-256color")],
          rfl, by simp, by simp⟩
      | ok u2 =>
        cases hsh : env.shell with
        | error e =>
          have hres : connectAfterAuth env tt sessions ev =
              (.error e, sessions,
               ev ++ [.logAttempt "Success", .channelOpen,
                      .requestPty (tt.getD "xterm-256color"), .shellStart]) := by
            simp [connectAfterAuth, hauth, hcs, hrp, hsh]
          rw [hres]
          exact ⟨rfl,
            [.logAttempt "Success", .channelOpen,
             .requestPty (tt.getD "xterm-256color"), .shellStart],
            rfl, by simp, by simp⟩
        | ok u3 =>
          exfalso
          have hres : (connectAfterAuth env tt sessions ev).1 = .ok env.newSessionId := by
            simp [connectAfterAuth, hauth, hcs, hrp, hsh]
          rw [hres] at h
          simp [Except.isOk, Except.toBool] at h

/-- When the post-authentication tail succeeds, the shell started, the
new session was inserted, and the trace ends with shell start,
non-blocking switch, registry insertion and relay spawn, in that
order. -/
theorem connectAfterAuth_ok (env : ConnEnv) (tt : Option String)
    (sessions : Registry) (ev : List Event) (id : String)
    (h : (connectAfterAuth env tt sessions ev).1 = .ok id) :
    id = env.newSessionId ∧ env.shell = .ok () ∧
    (connectAfterAuth env tt sessions ev).2.1 = insertReg id { sftp := none } sessions ∧
    ∃ pre, (connectAfterAuth env tt sessions ev).2.2 =
      pre ++ [Event.shellStart, Event.setNonBlocking,
              Event.registryInsert id, Event.relaySpawn] := by
  cases hauth : env.authenticated with
  | false =>
    have hres : (connectAfterAuth env tt sessions ev).1 = .error "Authentication failed" := by
      simp [connectAfterAuth, hauth]
    rw [hres] at h
    exact Except.noConfusion h
  | true =>
    cases hcs : env.channelSession with
    | error e =>
      have hres : (connectAfterAuth env tt sessions ev).1 = .error e := by
        simp [connectAfterAuth, hauth, hcs]
      rw [hres] at h
      exact Except.noConfusion h
    | ok u =>
      cases hrp : env.requestPty with
      | error e =>
        have hres : (connectAfterAuth env tt sessions ev).1 = .error e := by
          simp [connectAfterAuth, hauth, hcs, hrp]
        rw [hres] at h
        exact Except.noConfusion h
      | ok u2 =>
        cases hsh : env.shell with
        | error e =>
          have hres : (connectAfterAuth env tt sessions ev).1 = .error e := by
            simp [connectAfterAuth, hauth, hcs, hrp, hsh]
          rw [hres] at h
          exact Except.noConfusion h
        | ok u3 =>
          have hres : connectAfterAuth env tt sessions ev =
              (.ok env.newSessionId,
               insertReg env.newSessionId { sftp := none } sessions,
               ev ++ [.logAttempt "Success", .channelOpen,
                      .requestPty (tt.getD "xterm-256color"), .shellStart, .setNonBlocking,
                      .registryInsert env.newSessionId, .relaySpawn]) := by
            simp [connectAfterAuth, hauth, hcs, hrp, hsh]
          rw [hres] at h
          injection h with hid
          subst hid
          rw [hres]
          refine ⟨rfl, rfl, rfl,
            ev ++ [.logAttempt "Success", .channelOpen,
                   .requestPty (tt.getD "xterm-256color")], by simp⟩

/-- C1 counterexample: with every library call able to succeed and a
request carrying neither password nor key, `connect_ssh` still performs
the TCP connect and the SSH handshake before discovering the missing
credential — the validation error is raised only after network I/O. -/
theorem connect_no_credential_contacts_network :
    detailsNoCred.password = none ∧ detailsNoCred.private_key_path = none ∧
    Event.tcpConnect ∈ (connect_ssh envAllOk detailsNoCred none []).2.2 ∧
    Event.handshake ∈ (connect_ssh envAllOk detailsNoCred none []).2.2 ∧
    (connect_ssh envAllOk detailsNoCred none []).1 =
      .error "No password or private key provided" := by
  refine ⟨rfl, rfl, ?_, ?_, rfl⟩ <;> decide

/-- C1 amended: a connect request with neither password nor key always
fails, attempts no authentication, inserts nothing into the registry and
spawns no relay; when transport setup succeeds the error is exactly the
validation message "No password or private key provided". The failure
is detected only after TCP connect and handshake, not before network
I/O. -/
theorem connect_no_credential_validation (env : ConnEnv) (details : ConnectionDetails)
    (tt : Option String) (sessions : Registry)
    (hpw : details.password = none) (hkey : details.private_key_path = none) :
    (connect_ssh env details tt sessions).1.isOk = false ∧
    (connect_ssh env details tt sessions).2.1 = sessions ∧
    Event.authKey ∉ (connect_ssh env details tt sessions).2.2 ∧
    Event.authPassword ∉ (connect_ssh env details tt sessions).2.2 ∧
    (∀ id, Event.registryInsert id ∉ (connect_ssh env details tt sessions).2.2) ∧
    Event.relaySpawn ∉ (connect_ssh env details tt sessions).2.2 ∧
    (env.tcpConnect = .ok () → env.sessionNew = .ok () → env.handshake = .ok () →
      (connect_ssh env details tt sessions).1 =
        .error "No password or private key provided") := by
  have hak : Event.authKey ∉ keepaliveEvents details.keepalive_interval :=
    keepaliveEvents_only _ _ (fun k h => Event.noConfusion h)
  have hap : Event.authPassword ∉ keepaliveEvents details.keepalive_interval :=
    keepaliveEvents_only _ _ (fun k h => Event.noConfusion h)
  have hni : ∀ id, Event.registryInsert id ∉ keepaliveEvents details.keepalive_interval :=
    fun id => keepaliveEvents_only _ _ (fun k h => Event.noConfusion h)
  have hns : Event.relaySpawn ∉ keepaliveEvents details.keepalive_interval :=
    keepaliveEvents_only _ _ (fun k h => Event.noConfusion h)
  cases htcp : env.tcpConnect with
  | error e =>
    have hres : connect_ssh env details tt sessions =
        (.error e, sessions, [.logAttempt "Connecting...", .tcpConnect]) := by
      simp [connect_ssh, htcp]
    rw [hres]
    refine ⟨rfl, rfl, by simp, by simp, by simp, by simp, ?_⟩
    intro htcp2 _ _
    exact Except.noConfusion htcp2
  | ok u =>
    cases hsn : env.sessionNew with
    | error e =>
      have hres : connect_ssh env details tt sessions =
          (.error e, sessions, [.logAttempt "Connecting...", .tcpConnect]) := by
        simp [connect_ssh, htcp, hsn]
      rw [hres]
      refine ⟨rfl, rfl, by simp, by simp, by simp, by simp, ?_⟩
      intro _ hsn2 _
      exact Except.noConfusion hsn2
    | ok u2 =>
      cases hhs : env.handshake with
      | error e =>
        have hres : connect_ssh env details tt sessions =
            (.error e, sessions,
             [.logAttempt "Connecting...", .tcpConnect,
              .setTimeout (details.timeout.getD 10000)]
               ++ keepaliveEvents details.keepalive_interval ++ [.handshake]) := by
          simp [connect_ssh, htcp, hsn, hhs]
        rw [hres]
        refine ⟨rfl, rfl, by simp [hak], by simp [hap], fun id => by simp [hni id],
          by simp [hns], ?_⟩
        intro _ _ hhs2
        exact Except.noConfusion hhs2
      | ok u3 =>
        have hres : connect_ssh env details tt sessions =
            (.error "No password or private key provided", sessions,
             [.logAttempt "Connecting...", .tcpConnect,
              .setTimeout (details.timeout.getD 10000)]
               ++ keepaliveEvents details.keepalive_interval ++ [.handshake]) := by
          simp [connect_ssh, htcp, hsn, hhs, hpw, hkey]
        rw [hres]
        exact ⟨rfl, rfl, by simp [hak], by simp [hap], fun id => by simp [hni id],
          by simp [hns], fun _ _ _ => rfl⟩

/-- C1 amended witness: the all-succeeding environment with the
credential-free request. -/
theorem connect_no_credential_validation_witness :
    (connect_ssh envAllOk detailsNoCred none []).1.isOk = false ∧
    (connect_ssh envAllOk detailsNoCred none []).2.1 = ([] : Registry) ∧
    (connect_ssh envAllOk detailsNoCred none []).1 =
      .error "No password or private key provided" := by
  have h := connect_no_credential_validation envAllOk detailsNoCred none [] (by rfl) (by rfl)
  exact ⟨h.1, h.2.1, h.2.2.2.2.2.2 (by rfl) (by rfl) (by rfl)⟩

/-- C10: `connect_ssh` is atomic with respect to the registry: on any
failure the registry is unchanged and no insertion or relay spawn was
performed; on success the shell had started and the trace ends with
shell start, non-blocking switch, registry insertion, relay spawn — so
the entry and the relay exist only after a successful shell start. -/
theorem connect_ssh_atomic (env : ConnEnv) (details : ConnectionDetails)
    (tt : Option String) (sessions : Registry) :
    ((connect_ssh env details tt sessions).1.isOk = false →
      (connect_ssh env details tt sessions).2.1 = sessions ∧
      (∀ id, Event.registryInsert id ∉ (connect_ssh env details tt sessions).2.2) ∧
      Event.relaySpawn ∉ (connect_ssh env details tt sessions).2.2) ∧
    (∀ id, (connect_ssh env details tt sessions).1 = .ok id →
      env.shell = .ok () ∧
      (connect_ssh env details tt sessions).2.1 = insertReg id { sftp := none } sessions ∧
      ∃ pre, (connect_ssh env details tt sessions).2.2 =
        pre ++ [Event.shellStart, Event.setNonBlocking,
                Event.registryInsert id, Event.relaySpawn]) := by
  have hni : ∀ id, Event.registryInsert id ∉ keepaliveEvents details.keepalive_interval :=
    fun id => keepaliveEvents_only _ _ (fun k h => Event.noConfusion h)
  have hns : Event.relaySpawn ∉ keepaliveEvents details.keepalive_interval :=
    keepaliveEvents_only _ _ (fun k h => Event.noConfusion h)
  cases htcp : env.tcpConnect with
  | error e =>
    have hres : connect_ssh env details tt sessions =
        (.error e, sessions, [.logAttempt "Connecting...", .tcpConnect]) := by
      simp [connect_ssh, htcp]
    rw [hres]
    exact ⟨fun _ => ⟨rfl, by simp, by simp⟩, fun id h => Except.noConfusion h⟩
  | ok u =>
    cases hsn : env.sessionNew with
    | error e =>
      have hres : connect_ssh env details tt sessions =
          (.error e, sessions, [.logAttempt "Connecting...", .tcpConnect]) := by
        simp [connect_ssh, htcp, hsn]
      rw [hres]
      exact ⟨fun _ => ⟨rfl, by simp, by simp⟩, fun id h => Except.noConfusion h⟩
    | ok u2 =>
      cases hhs : env.handshake with
      | error e =>
        have hres : connect_ssh env details tt sessions =
            (.error e, sessions,
             [.logAttempt "Connecting...", .tcpConnect,
              .setTimeout (details.timeout.getD 10000)]
               ++ keepaliveEvents details.keepalive_interval ++ [.handshake]) := by
          simp [connect_ssh, htcp, hsn, hhs]
        rw [hres]
        exact ⟨fun _ => ⟨rfl, fun id => by simp [hni id], by simp [hns]⟩,
          fun id h => Except.noConfusion h⟩
      | ok u3 =>
        cases hkey : details.private_key_path with
        | some kp =>
          cases hax : env.authKey with
          | error e =>
            have hres : connect_ssh env details tt sessions =
                (.error ("Key authentication failed: " ++ e), sessions,
                 [.logAttempt "Connecting...", .tcpConnect,
                  .setTimeout (details.timeout.getD 10000)]
                   ++ keepaliveEvents details.keepalive_interval
                   ++ [.handshake, .authKey]) := by
              simp [connect_ssh, htcp, hsn, hhs, hkey, hax]
            rw [hres]
            exact ⟨fun _ => ⟨rfl, fun id => by simp [hni id], by simp [hns]⟩,
              fun id h => Except.noConfusion h⟩
          | ok u4 =>
            have hres : connect_ssh env details tt sessions =
                connectAfterAuth env tt sessions
                  ([.logAttempt "Connecting...", .tcpConnect,
                    .setTimeout (details.timeout.getD 10000)]
                     ++ keepaliveEvents details.keepalive_interval
                     ++ [.handshake, .authKey]) := by
              simp [connect_ssh, htcp, hsn, hhs, hkey, hax]
            rw [hres]
            constructor
            · intro hfail
              obtain ⟨hreg, extra, hev, hxi, hxs⟩ :=
                connectAfterAuth_error env tt sessions _ hfail
              refine ⟨hreg, ?_, ?_⟩
              · intro id
                rw [hev]
                simp [hni id, hxi id]
              · rw [hev]
                simp [hns, hxs]
            · intro id hok
              obtain ⟨-, hsh, hreg, pre, hev⟩ :=
                connectAfterAuth_ok env tt sessions _ id hok
              exact ⟨hsh, hreg, pre, hev⟩
        | none =>
          cases hpw : details.password with
          | some pw =>
            cases hap : env.authPassword with
            | error e =>
              have hres : connect_ssh env details tt sessions =
                  (.error ("Password authentication failed: " ++ e), sessions,
                   [.logAttempt "Connecting...", .tcpConnect,
                    .setTimeout (details.timeout.getD 10000)]
                     ++ keepaliveEvents details.keepalive_interval
                     ++ [.handshake, .authPassword]) := by
                simp [connect_ssh, htcp, hsn, hhs, hkey, hpw, hap]
              rw [hres]
              exact ⟨fun _ => ⟨rfl, fun id => by simp [hni id], by simp [hns]⟩,
                fun id h => Except.noConfusion h⟩
            | ok u4 =>
              have hres : connect_ssh env details tt sessions =
                  connectAfterAuth env tt sessions
                    ([.logAttempt "Connecting...", .tcpConnect,
                      .setTimeout (details.timeout.getD 10000)]
                       ++ keepaliveEvents details.keepalive_interval
                       ++ [.handshake, .authPassword]) := by
                simp [connect_ssh, htcp, hsn, hhs, hkey, hpw, hap]
              rw [hres]
              constructor
              · intro hfail
                obtain ⟨hreg, extra, hev, hxi, hxs⟩ :=
                  connectAfterAuth_error env tt sessions _ hfail
                refine ⟨hreg, ?_, ?_⟩
                · intro id
                  rw [hev]
                  simp [hni id, hxi id]
                · rw [hev]
                  simp [hns, hxs]
              · intro id hok
                obtain ⟨-, hsh, hreg, pre, hev⟩ :=
                  connectAfterAuth_ok env tt sessions _ id hok
                exact ⟨hsh, hreg, pre, hev⟩
          | none =>
            have hres : connect_ssh env details tt sessions =
                (.error "No password or private key provided", sessions,
                 [.logAttempt "Connecting...", .tcpConnect,
                  .setTimeout (details.timeout.getD 10000)]
                   ++ keepaliveEvents details.keepalive_interval ++ [.handshake]) := by
              simp [connect_ssh, htcp, hsn, hhs, hkey, hpw]
            rw [hres]
            exact ⟨fun _ => ⟨rfl, fun id => by simp [hni id], by simp [hns]⟩,
              fun id h => Except.noConfusion h⟩

/-- C10 witness: the all-succeeding environment with a password request
registers exactly the new session and ends its trace with shell start,
non-blocking switch, insertion and relay spawn. -/
theorem connect_ssh_atomic_witness :
    envAllOk.shell = .ok () ∧
    (connect_ssh envAllOk detailsPw none []).2.1 =
      insertReg uuid0 { sftp := none } [] ∧
    ∃ pre, (connect_ssh envAllOk detailsPw none []).2.2 =
      pre ++ [Event.shellStart, Event.setNonBlocking,
              Event.registryInsert uuid0, Event.relaySpawn] :=
  (connect_ssh_atomic envAllOk detailsPw none []).2 uuid0 (by rfl)

end Terminoda

